import Mathlib

deriving instance DecidableEq for Except

/-
Verification of the training pipeline in `src/train.py` of the
ESG_Credit_Approval repository.

The script is a single linear pipeline: load config -> load data ->
select features/target -> optional imputation -> train/test split ->
model dispatch -> fit -> predict -> metrics -> logging of parameters,
metrics, model, config snapshot, boxplots and a correlation heatmap.

The embedding below translates the script into pure Lean functions.
Python dictionaries become association lists, a pandas DataFrame becomes
a list of column names plus rows of optionally-missing rational cells
(None models NaN), and each fallible step returns `Except PipelineError`.
The external library calls (SimpleImputer, train_test_split, the sklearn
metric functions) are not part of the repository; they are modelled from
the spec's description of their contract, with a concrete seeded
pseudo-random permutation standing in for the library's shuffler.
Model fitting is treated as an opaque parameter `fit` of the pipeline,
since the spec treats training itself as a black box.
-/

namespace Train

/-- Errors a run of the script can abort with: `keyError` is a Python
dict-subscript failure (the config-file lookup on train.py line 34),
`columnError` is a pandas missing-column failure (lines 42-43), and
`valueError` covers the explicit raise on line 69 as well as the
validation errors raised inside the modelled library calls. -/
inductive PipelineError where
  | keyError (key : String)
  | columnError (col : String)
  | valueError (msg : String)
  deriving DecidableEq

/-- Config section `feature_selection` (train.py line 41). -/
structure FeatureSelection where
  features_to_keep : List String
  deriving DecidableEq

/-- Config section `missing_value_imputation` (train.py lines 46-47). -/
structure ImputeConfig where
  enabled : Bool
  strategy : String
  deriving DecidableEq

/-- Config section `data_split` (train.py lines 53-54). -/
structure SplitConfig where
  test_size : ℚ
  random_state : ℕ
  deriving DecidableEq

/-- Config section `model` (train.py line 58). Hyperparameter values are
modelled as rationals, which covers every hyperparameter the claims
mention; the pipeline only passes them through opaquely. -/
structure ModelConfig where
  hyperparameters : List (String × ℚ)
  deriving DecidableEq

/-- The parsed JSON configuration (train.py lines 34-35), restricted to
the fields the script reads. -/
structure Config where
  feature_selection : FeatureSelection
  target_variable : String
  missing_value_imputation : ImputeConfig
  data_split : SplitConfig
  model : ModelConfig
  deriving DecidableEq

/-- The CSV loaded by pandas (train.py line 38): named columns and rows
of cells, where a `none` cell models a missing value (NaN). -/
structure DataFrame where
  cols : List String
  rows : List (List (Option ℚ))
  deriving DecidableEq

/-- A feature matrix `X` (train.py lines 42, 49-50): the selected column
names in their configured order, plus the corresponding row data. -/
structure FeatureMatrix where
  cols : List String
  rows : List (List (Option ℚ))
  deriving DecidableEq

/-- The dict `model_config_files` of train.py lines 25-29. Note that it
has no entry for the key "SVR". -/
def model_config_files : List (String × String) :=
  [("RandomForestRegressor", "configs/RandomForest.json"),
   ("LogisticRegression", "configs/LogisticRegression.json"),
   ("XGBRegressor", "configs/XGBoost.json")]

/-- The hard-coded model selection of train.py line 32. -/
def model_type : String := "RandomForestRegressor"

/-- The dict subscript `model_config_files[model_type]` of train.py
line 34: a missing key raises a Python KeyError. -/
def lookupConfigFile (mt : String) : Except PipelineError String :=
  match model_config_files.lookup mt with
  | some path => Except.ok path
  | none => Except.error (PipelineError.keyError mt)

/-- The estimator variants of the dispatch on train.py lines 60-67. -/
inductive ModelKind where
  | randomForestRegressor
  | logisticRegression
  | svr
  | xgbRegressor
  deriving DecidableEq

/-- The model dispatch of train.py lines 60-69: four recognised
model-type strings, and the explicit ValueError of line 69 otherwise. -/
def selectModel (mt : String) : Except PipelineError ModelKind :=
  if mt = "RandomForestRegressor" then Except.ok ModelKind.randomForestRegressor
  else if mt = "LogisticRegression" then Except.ok ModelKind.logisticRegression
  else if mt = "SVR" then Except.ok ModelKind.svr
  else if mt = "XGBRegressor" then Except.ok ModelKind.xgbRegressor
  else Except.error (PipelineError.valueError ("Model type " ++ mt ++ " is not supported."))

/-- Position of each requested column inside the table's column list; a
missing column is the pandas KeyError raised by `df[features]` (train.py
line 42). -/
def colIndices (cols : List String) : List String → Except PipelineError (List ℕ)
  | [] => Except.ok []
  | c :: cs =>
    match cols.findIdx? (fun c2 => c2 == c) with
    | none => Except.error (PipelineError.columnError c)
    | some i =>
      match colIndices cols cs with
      | Except.error e => Except.error e
      | Except.ok is => Except.ok (i :: is)

/-- The column selection `X = df[features]` of train.py line 42: the
result carries exactly the configured columns in their configured
order. -/
def selectCols (df : DataFrame) (features : List String) : Except PipelineError FeatureMatrix :=
  match colIndices df.cols features with
  | Except.error e => Except.error e
  | Except.ok idxs =>
    Except.ok ⟨features, df.rows.map (fun r => idxs.map (fun i => r.getD i none))⟩

/-- The target extraction `y = df[config[target_variable]]` of train.py
line 43. -/
def selectCol (df : DataFrame) (c : String) : Except PipelineError (List (Option ℚ)) :=
  match df.cols.findIdx? (fun c2 => c2 == c) with
  | none => Except.error (PipelineError.columnError c)
  | some i => Except.ok (df.rows.map (fun r => r.getD i none))

/-- Arithmetic mean of a list of rationals. -/
def meanQ (l : List ℚ) : ℚ := l.sum / l.length

/-- Insertion into a sorted list, used to model the sorting the imputer
needs for the median strategy. -/
def insertSorted (x : ℚ) : List ℚ → List ℚ
  | [] => [x]
  | y :: ys => if x ≤ y then x :: y :: ys else y :: insertSorted x ys

/-- Insertion sort on rationals. -/
def sortQ (l : List ℚ) : List ℚ := l.foldr insertSorted []

/-- Median of a list, lower-upper averaged on even lengths, matching the
numeric median the imputer's "median" strategy computes. -/
def medianQ (l : List ℚ) : ℚ :=
  let s := sortQ l
  let n := s.length
  if n % 2 = 1 then s.getD (n / 2) 0
  else (s.getD (n / 2 - 1) 0 + s.getD (n / 2) 0) / 2

/-- Multiplicity of a value in a list. -/
def countQ (x : ℚ) (l : List ℚ) : ℕ := (l.filter (fun y => decide (y = x))).length

/-- Smallest most-frequent value of a list, matching the imputer's
"most_frequent" strategy. -/
def mostFrequentQ (l : List ℚ) : ℚ :=
  (sortQ l).foldl (fun best y => if countQ best l < countQ y l then y else best) (l.getD 0 0)

/-- Modelled from the spec: the per-column fill value SimpleImputer
computes from the non-missing entries of a column, for each strategy of
the library's fixed set. The library itself is not part of this
repository. For "constant" the library's numeric default fill value is
0. -/
def fillValue (strategy : String) (vals : List ℚ) : ℚ :=
  if strategy = "mean" then meanQ vals
  else if strategy = "median" then medianQ vals
  else if strategy = "most_frequent" then mostFrequentQ vals
  else 0

/-- The non-missing entries of column `j` of a row-major matrix. -/
def colVals (m : List (List (Option ℚ))) (j : ℕ) : List ℚ :=
  m.filterMap (fun r => r.getD j none)

/-- Modelled from the spec: `SimpleImputer.fit_transform` (train.py
line 49) replaces each missing cell by its column's fill value, keeping
every row and the column order. -/
def imputeMatrix (strategy : String) (ncols : ℕ) (m : List (List (Option ℚ))) :
    List (List ℚ) :=
  let fills := (List.range ncols).map (fun j => fillValue strategy (colVals m j))
  m.map (fun r => (List.range ncols).map (fun j => (r.getD j none).getD (fills.getD j 0)))

/-- The imputation strategies the library recognises; an unknown
strategy name raises a ValueError inside the library. -/
def allowedStrategies : List String := ["mean", "median", "most_frequent", "constant"]

/-- The imputation block of train.py lines 46-50: when enabled, impute
and rebuild the frame with `columns=features` (line 50); when disabled,
the feature matrix passes through unchanged. -/
def imputeStep (ic : ImputeConfig) (features : List String) (X : FeatureMatrix) :
    Except PipelineError FeatureMatrix :=
  if ic.enabled then
    if ic.strategy ∈ allowedStrategies then
      Except.ok ⟨features, (imputeMatrix ic.strategy features.length X.rows).map
        (fun r => r.map some)⟩
    else Except.error (PipelineError.valueError "Can only use these strategies")
  else Except.ok X

/-- One step of a linear congruential generator, the concrete
pseudo-random stream standing in for the library's seeded shuffler. -/
def lcgNext (s : ℕ) : ℕ := (1103515245 * s + 12345) % 2 ^ 31

/-- Remove the element at position `i`, returning it and the remainder. -/
def pickOut : ℕ → List α → Option (α × List α)
  | _, [] => none
  | 0, x :: xs => some (x, xs)
  | i + 1, x :: xs =>
    match pickOut i xs with
    | none => none
    | some (y, ys) => some (y, x :: ys)

/-- Fuelled Fisher-Yates draw: repeatedly extract a pseudo-randomly
chosen element. -/
def shuffleGo : ℕ → ℕ → List α → List α
  | 0, _, _ => []
  | fuel + 1, s, l =>
    match pickOut (s % l.length) l with
    | none => []
    | some (x, rest) => x :: shuffleGo fuel (lcgNext s) rest

/-- Modelled from the spec: the deterministic seeded permutation the
split uses; same seed and same input list give the same output. -/
def shuffle (seed : ℕ) (l : List α) : List α :=
  shuffleGo l.length (lcgNext seed) l

/-- Number of test rows the split carves out of `n` rows: the ceiling of
`test_size * n`, as the library documents. -/
def nTestOf (ts : ℚ) (n : ℕ) : ℕ := (Int.ceil (ts * (n : ℚ))).toNat

/-- Modelled from the spec: `train_test_split` (train.py line 55).
Validation: consistent input lengths, a fractional `test_size` strictly
inside (0,1), and both resulting parts non-empty; then one seeded
permutation is applied to rows and targets together, the first
`nTest` permuted rows forming the test set and the remainder the train
set. Returns `(X_train, X_test, y_train, y_test)`. -/
def train_test_split (X : List α) (y : List β) (test_size : ℚ) (random_state : ℕ) :
    Except PipelineError (List α × List α × List β × List β) :=
  if X.length ≠ y.length then
    Except.error (PipelineError.valueError "Found input variables with inconsistent numbers of samples")
  else if test_size ≤ 0 ∨ 1 ≤ test_size then
    Except.error (PipelineError.valueError "test_size should be in the (0, 1) range")
  else if nTestOf test_size X.length = 0 ∨ X.length - nTestOf test_size X.length = 0 then
    Except.error (PipelineError.valueError "the resulting train set will be empty")
  else
    Except.ok
      (((shuffle random_state (X.zip y)).drop (nTestOf test_size X.length)).map Prod.fst,
       ((shuffle random_state (X.zip y)).take (nTestOf test_size X.length)).map Prod.fst,
       ((shuffle random_state (X.zip y)).drop (nTestOf test_size X.length)).map Prod.snd,
       ((shuffle random_state (X.zip y)).take (nTestOf test_size X.length)).map Prod.snd)

/-- A vector of cells with no missing entry; a missing entry is the
NaN-rejection ValueError the library raises when fitting, predicting or
scoring. -/
def toVecQ : List (Option ℚ) → Option (List ℚ)
  | [] => some []
  | none :: _ => none
  | some q :: rest =>
    match toVecQ rest with
    | none => none
    | some v => some (q :: v)

/-- Row-wise version of `toVecQ`. -/
def toMatQ : List (List (Option ℚ)) → Option (List (List ℚ))
  | [] => some []
  | r :: rs =>
    match toVecQ r, toMatQ rs with
    | some v, some vs => some (v :: vs)
    | _, _ => none

/-- Modelled from the spec: sklearn `mean_squared_error` (train.py
line 89), mean of squared errors in exact arithmetic. -/
def mean_squared_error (y p : List ℚ) : ℚ :=
  (List.zipWith (fun a b => (a - b) ^ 2) y p).sum / y.length

/-- Modelled from the spec: sklearn `mean_absolute_error` (train.py
line 90). -/
def mean_absolute_error (y p : List ℚ) : ℚ :=
  (List.zipWith (fun a b => |a - b|) y p).sum / y.length

/-- Modelled from the spec: sklearn `r2_score` (train.py line 92),
one minus the ratio of residual to total sum of squares. -/
def r2_score (y p : List ℚ) : ℚ :=
  1 - (List.zipWith (fun a b => (a - b) ^ 2) y p).sum /
        ((y.map (fun a => (a - meanQ y) ^ 2)).sum)

/-- The rmse of train.py line 91, computed by the script as
`mean_squared_error(..., squared=False)`: the square root of the mse. -/
noncomputable def rmse (y p : List ℚ) : ℝ :=
  Real.sqrt ((mean_squared_error y p : ℚ) : ℝ)

/-- The three rational metric values of train.py lines 89-92 (the rmse
is determined by the mse; see `rmse`). -/
structure Metrics where
  mse : ℚ
  mae : ℚ
  r2 : ℚ
  deriving DecidableEq

/-- The metric block of train.py lines 89-92. The library validates that
predictions and targets have consistent lengths and otherwise computes
the scores; it has no side effects. -/
def computeMetrics (y p : List ℚ) : Option Metrics :=
  if y.length = p.length then
    some ⟨mean_squared_error y p, mean_absolute_error y p, r2_score y p⟩
  else none

/-- Everything a completed run logs, apart from the timestamped run
name: parameters (train.py lines 95-96), the train/test partition and
predictions, the metrics (lines 97-100), the config snapshot written on
lines 111-114, and the names of the plot artifacts (lines 117-134). -/
structure RunCore where
  paramModelType : String
  paramHyper : List (String × ℚ)
  modelKind : ModelKind
  xTrain : List (List ℚ)
  xTest : List (List ℚ)
  yTrain : List ℚ
  yTest : List ℚ
  predictions : List ℚ
  metrics : Metrics
  snapshot : Config
  boxplots : List String
  corrArtifact : String
  deriving DecidableEq

/-- A completed run record: the unique timestamped run name of train.py
line 79 plus everything else the run logs. -/
structure RunRecord where
  runName : String
  core : RunCore
  deriving DecidableEq

/-- Sequencing of one fallible pipeline stage into the rest of the
script: an error aborts the run, a success feeds the next stage. -/
def exStep (e : Except PipelineError γ) (f : γ → Except PipelineError δ) :
    Except PipelineError δ :=
  match e with
  | Except.error err => Except.error err
  | Except.ok x => f x

/-- Sequencing of a library call that rejects some inputs: a rejected
input aborts the run with the library's error. -/
def optStep (o : Option γ) (err : PipelineError) (f : γ → Except PipelineError δ) :
    Except PipelineError δ :=
  match o with
  | none => Except.error err
  | some x => f x

/-- The pipeline of train.py up to and including the logging calls,
minus the run name. `fit` is the opaque trainer: given the model kind,
the hyperparameters and the training data it yields a per-row
predictor. `readConfig` maps a config-file path to its parsed content.
The steps appear in source order: config lookup (line 34), feature and
target selection (lines 41-43), imputation (lines 46-50), split
(lines 53-55), model dispatch (lines 60-69), fit (line 83, where the
library rejects missing values in the training data), predict (line 86,
likewise for the test rows), metrics (lines 89-92, likewise for the
held-out targets), then assembly of everything the run logs. The split
quadruple is `(X_train, X_test, y_train, y_test)`. -/
def runCore (fit : ModelKind → List (String × ℚ) → List (List ℚ) → List ℚ → List ℚ → ℚ)
    (readConfig : String → Config) (df : DataFrame) (mt : String) :
    Except PipelineError RunCore :=
  exStep (lookupConfigFile mt) (fun path =>
  let config := readConfig path
  let features := config.feature_selection.features_to_keep
  exStep (selectCols df features) (fun X0 =>
  exStep (selectCol df config.target_variable) (fun ycells =>
  exStep (imputeStep config.missing_value_imputation features X0) (fun X1 =>
  exStep (train_test_split X1.rows ycells config.data_split.test_size
      config.data_split.random_state) (fun split =>
  exStep (selectModel mt) (fun kind =>
  optStep (toMatQ split.1) (PipelineError.valueError "Input contains NaN") (fun xtrv =>
  optStep (toVecQ split.2.2.1) (PipelineError.valueError "Input contains NaN") (fun ytrv =>
  let predictor := fit kind config.model.hyperparameters xtrv ytrv
  optStep (toMatQ split.2.1) (PipelineError.valueError "Input contains NaN") (fun xtev =>
  let predictions := xtev.map predictor
  optStep (toVecQ split.2.2.2) (PipelineError.valueError "Input contains NaN") (fun ytev =>
  optStep (computeMetrics ytev predictions)
      (PipelineError.valueError "Found input variables with inconsistent numbers of samples")
      (fun m =>
  Except.ok
    { paramModelType := mt
      paramHyper := config.model.hyperparameters
      modelKind := kind
      xTrain := xtrv
      xTest := xtev
      yTrain := ytrv
      yTest := ytev
      predictions := predictions
      metrics := m
      snapshot := config
      boxplots := X1.cols.map (fun c => c ++ "_boxplot.png")
      corrArtifact := "correlation_matrix.png" })))))))))))

/-- The full script run: `runCore` plus the timestamped run name of
train.py line 79, formed from the model type and the current time. -/
def runPipeline (fit : ModelKind → List (String × ℚ) → List (List ℚ) → List ℚ → List ℚ → ℚ)
    (readConfig : String → Config) (df : DataFrame) (now mt : String) :
    Except PipelineError RunRecord :=
  (runCore fit readConfig df mt).map (fun c => ⟨mt ++ " run " ++ now, c⟩)

/-- Projection of a run result onto what the determinism property
compares across runs: the partition and the metric values. -/
def runPartition (r : Except PipelineError RunRecord) :
    Except PipelineError (List (List ℚ) × List (List ℚ) × List ℚ × List ℚ × Metrics) :=
  r.map (fun r0 => (r0.core.xTrain, r0.core.xTest, r0.core.yTrain, r0.core.yTest, r0.core.metrics))

/-- A trivial trainer used for concrete runs: every model predicts 0.
The pipeline treats the trainer as a black box, so any function of this
type exercises the same control flow. -/
def cFit : ModelKind → List (String × ℚ) → List (List ℚ) → List ℚ → List ℚ → ℚ :=
  fun _ _ _ _ _ => 0

/-- The concrete configuration of the spec's concrete scenario:
features a and b, target y, imputation disabled, an 80/20 split with
seed 42, and one hyperparameter n_estimators = 10. -/
def cConfig : Config :=
  { feature_selection := ⟨["a", "b"]⟩
    target_variable := "y"
    missing_value_imputation := ⟨false, "mean"⟩
    data_split := ⟨1/5, 42⟩
    model := ⟨[("n_estimators", 10)]⟩ }

/-- A config store handing back `cConfig` for every path. -/
def cRead : String → Config := fun _ => cConfig

/-- An empty data table, usable in runs that abort before touching the
data. -/
def cDf : DataFrame := ⟨[], []⟩

/-- A complete 10-row dataset with columns a, b and y. -/
def wDf : DataFrame :=
  ⟨["a", "b", "y"],
   [[some 0, some 0, some 0],
    [some 1, some 2, some 3],
    [some 2, some 4, some 6],
    [some 3, some 6, some 9],
    [some 4, some 8, some 12],
    [some 5, some 10, some 15],
    [some 6, some 12, some 18],
    [some 7, some 14, some 21],
    [some 8, some 16, some 24],
    [some 9, some 18, some 27]]⟩

/-- A placeholder run core, used only as the default of an option
projection. -/
def dummyCore : RunCore :=
  ⟨"", [], ModelKind.randomForestRegressor, [], [], [], [], [], ⟨0, 0, 0⟩, cConfig, [], ""⟩

/-- The result of running the pipeline on the concrete 10-row
dataset. -/
def wRun : Except PipelineError RunRecord :=
  runPipeline cFit cRead wDf "t" "RandomForestRegressor"

/-- The run record of the concrete run. -/
def wRec : RunRecord := wRun.toOption.getD ⟨"", dummyCore⟩

section ShuffleLemmas

variable {α : Type}

/-- Removing anything from the empty list fails. -/
theorem pickOut_nil (i : ℕ) : pickOut i ([] : List α) = none := by
  cases i <;> rfl

/-- Removing the element at a valid position succeeds and shortens the
list by exactly one. -/
theorem pickOut_some_length :
    ∀ (i : ℕ) (l : List α), i < l.length →
      ∃ x rest, pickOut i l = some (x, rest) ∧ rest.length + 1 = l.length := by
  intro i l
  induction l generalizing i with
  | nil => intro h; simp at h
  | cons a as ih =>
    intro h
    cases i with
    | zero => exact ⟨a, as, rfl, rfl⟩
    | succ j =>
      obtain ⟨x, rest, hp, hl⟩ := ih j (Nat.lt_of_succ_lt_succ h)
      refine ⟨x, a :: rest, ?_, ?_⟩
      · simp [pickOut, hp]
      · simp [← hl]

/-- Both the extracted element and the remainder come from the input
list. -/
theorem pickOut_mem :
    ∀ (i : ℕ) (l : List α) (x : α) (rest : List α), pickOut i l = some (x, rest) →
      x ∈ l ∧ ∀ z ∈ rest, z ∈ l := by
  intro i l
  induction l generalizing i with
  | nil => intro x rest h; simp [pickOut] at h
  | cons a as ih =>
    intro x rest h
    cases i with
    | zero =>
      simp only [pickOut, Option.some.injEq, Prod.mk.injEq] at h
      obtain ⟨rfl, rfl⟩ := h
      exact ⟨List.mem_cons_self a as, fun z hz => List.mem_cons_of_mem a hz⟩
    | succ j =>
      simp only [pickOut] at h
      cases hp : pickOut j as with
      | none => rw [hp] at h; simp at h
      | some p =>
        rw [hp] at h
        obtain ⟨y, ys⟩ := p
        simp only [Option.some.injEq, Prod.mk.injEq] at h
        obtain ⟨rfl, rfl⟩ := h
        obtain ⟨hy, hys⟩ := ih j y ys hp
        refine ⟨List.mem_cons_of_mem a hy, ?_⟩
        intro z hz
        cases hz with
        | head => exact List.mem_cons_self a as
        | tail _ hz => exact List.mem_cons_of_mem a (hys z hz)

/-- With enough fuel the fuelled shuffle keeps the length of its
input. -/
theorem shuffleGo_length :
    ∀ (fuel s : ℕ) (l : List α), l.length ≤ fuel →
      (shuffleGo fuel s l).length = l.length := by
  intro fuel
  induction fuel with
  | zero =>
    intro s l h
    have : l = [] := List.eq_nil_of_length_eq_zero (Nat.le_zero.mp h)
    subst this
    rfl
  | succ f ih =>
    intro s l h
    cases l with
    | nil => simp [shuffleGo, pickOut_nil]
    | cons a as =>
      have hlt : s % (a :: as).length < (a :: as).length :=
        Nat.mod_lt _ (by simp)
      obtain ⟨x, rest, hp, hl⟩ := pickOut_some_length _ _ hlt
      simp only [shuffleGo, hp]
      have hrest : rest.length ≤ f := by
        simp only [List.length_cons] at hl h
        omega
      rw [List.length_cons, ih (lcgNext s) rest hrest]
      simp only [List.length_cons] at hl ⊢
      omega

/-- The shuffle preserves the length of its input. -/
theorem shuffle_length (seed : ℕ) (l : List α) :
    (shuffle seed l).length = l.length :=
  shuffleGo_length l.length (lcgNext seed) l le_rfl

/-- Every element of the fuelled shuffle comes from the input list. -/
theorem shuffleGo_subset :
    ∀ (fuel s : ℕ) (l : List α) (x : α), x ∈ shuffleGo fuel s l → x ∈ l := by
  intro fuel
  induction fuel with
  | zero => intro s l x h; simp [shuffleGo] at h
  | succ f ih =>
    intro s l x h
    simp only [shuffleGo] at h
    cases hp : pickOut (s % l.length) l with
    | none => rw [hp] at h; simp at h
    | some p =>
      rw [hp] at h
      obtain ⟨y, rest⟩ := p
      obtain ⟨hy, hrest⟩ := pickOut_mem _ _ _ _ hp
      cases h with
      | head => exact hy
      | tail _ h => exact hrest x (ih (lcgNext s) rest x h)

/-- Every element of the shuffle comes from the input list. -/
theorem shuffle_subset (seed : ℕ) (l : List α) (x : α) (h : x ∈ shuffle seed l) :
    x ∈ l :=
  shuffleGo_subset l.length (lcgNext seed) l x h

end ShuffleLemmas

section CellLemmas

/-- A successful cell-vector conversion keeps the length. -/
theorem toVecQ_length :
    ∀ (l : List (Option ℚ)) (v : List ℚ), toVecQ l = some v → v.length = l.length := by
  intro l
  induction l with
  | nil => intro v h; simp only [toVecQ, Option.some.injEq] at h; simp [← h]
  | cons c rest ih =>
    intro v h
    cases c with
    | none => simp [toVecQ] at h
    | some q =>
      simp only [toVecQ] at h
      cases hr : toVecQ rest with
      | none => rw [hr] at h; simp at h
      | some w =>
        rw [hr] at h
        simp only [Option.some.injEq] at h
        subst h
        simp [ih w hr]

/-- A vector without missing cells converts successfully. -/
theorem toVecQ_isSome (l : List (Option ℚ)) (h : ∀ c ∈ l, c.isSome = true) :
    ∃ v, toVecQ l = some v := by
  induction l with
  | nil => exact ⟨[], rfl⟩
  | cons c rest ih =>
    obtain ⟨q, rfl⟩ := Option.isSome_iff_exists.mp (h c (List.mem_cons_self c rest))
    obtain ⟨v, hv⟩ := ih (fun c hc => h c (List.mem_cons_of_mem _ hc))
    exact ⟨q :: v, by simp [toVecQ, hv]⟩

/-- A successful matrix conversion keeps the row count. -/
theorem toMatQ_length :
    ∀ (m : List (List (Option ℚ))) (v : List (List ℚ)), toMatQ m = some v →
      v.length = m.length := by
  intro m
  induction m with
  | nil => intro v h; simp only [toMatQ, Option.some.injEq] at h; simp [← h]
  | cons r rs ih =>
    intro v h
    simp only [toMatQ] at h
    cases hr : toVecQ r with
    | none => rw [hr] at h; simp at h
    | some w =>
      cases hrs : toMatQ rs with
      | none => rw [hr, hrs] at h; simp at h
      | some ws =>
        rw [hr, hrs] at h
        simp only [Option.some.injEq] at h
        subst h
        simp [ih ws hrs]

/-- A matrix without missing cells converts successfully. -/
theorem toMatQ_isSome (m : List (List (Option ℚ)))
    (h : ∀ r ∈ m, ∀ c ∈ r, c.isSome = true) : ∃ v, toMatQ m = some v := by
  induction m with
  | nil => exact ⟨[], rfl⟩
  | cons r rs ih =>
    obtain ⟨w, hw⟩ := toVecQ_isSome r (h r (List.mem_cons_self r rs))
    obtain ⟨ws, hws⟩ := ih (fun r hr => h r (List.mem_cons_of_mem _ hr))
    exact ⟨w :: ws, by simp [toMatQ, hw, hws]⟩

/-- Reading inside the bounds of a vector of non-missing cells yields a
non-missing cell. -/
theorem getD_isSome_of_all :
    ∀ (r : List (Option ℚ)) (i : ℕ), i < r.length → (∀ c ∈ r, c.isSome = true) →
      (r.getD i none).isSome = true := by
  intro r
  induction r with
  | nil => intro i hi _; simp at hi
  | cons a as ih =>
    intro i hi h
    cases i with
    | zero => exact h a (List.mem_cons_self a as)
    | succ j =>
      exact ih j (Nat.lt_of_succ_lt_succ hi) (fun c hc => h c (List.mem_cons_of_mem a hc))

end CellLemmas

section StageLemmas

/-- Inversion of a successful fallible stage. -/
theorem exStep_ok {γ δ : Type} {e : Except PipelineError γ}
    {f : γ → Except PipelineError δ} {c : δ} (h : exStep e f = Except.ok c) :
    ∃ x, e = Except.ok x ∧ f x = Except.ok c := by
  cases e with
  | error err => simp [exStep] at h
  | ok x => exact ⟨x, rfl, h⟩

/-- Inversion of a successful library-validated stage. -/
theorem optStep_ok {γ δ : Type} {o : Option γ} {err : PipelineError}
    {f : γ → Except PipelineError δ} {c : δ} (h : optStep o err f = Except.ok c) :
    ∃ x, o = some x ∧ f x = Except.ok c := by
  cases o with
  | none => simp [optStep] at h
  | some x => exact ⟨x, rfl, h⟩

/-- A successful config-file lookup is a hit in the dict of train.py
lines 25-29. -/
theorem lookupConfigFile_ok {mt path : String}
    (h : lookupConfigFile mt = Except.ok path) :
    model_config_files.lookup mt = some path := by
  unfold lookupConfigFile at h
  cases hl : model_config_files.lookup mt with
  | none => rw [hl] at h; simp at h
  | some p => rw [hl] at h; simp only [Except.ok.injEq] at h; rw [h]

/-- A miss in the config-file dict raises the KeyError of train.py
line 34. -/
theorem lookupConfigFile_err {mt : String}
    (h : model_config_files.lookup mt = none) :
    lookupConfigFile mt = Except.error (PipelineError.keyError mt) := by
  unfold lookupConfigFile
  rw [h]

/-- Column selection labels the result with exactly the requested
feature list. -/
theorem selectCols_cols {df : DataFrame} {features : List String} {X : FeatureMatrix}
    (h : selectCols df features = Except.ok X) : X.cols = features := by
  unfold selectCols at h
  cases hc : colIndices df.cols features with
  | error e => rw [hc] at h; simp at h
  | ok idxs => rw [hc] at h; simp only [Except.ok.injEq] at h; rw [← h]

/-- The imputation step keeps the feature-column labels: when enabled it
rebuilds the frame with `columns=features` (train.py line 50), when
disabled it passes the frame through. -/
theorem imputeStep_cols {ic : ImputeConfig} {features : List String}
    {X X1 : FeatureMatrix} (hcols : X.cols = features)
    (h : imputeStep ic features X = Except.ok X1) : X1.cols = features := by
  unfold imputeStep at h
  by_cases he : ic.enabled
  · rw [if_pos he] at h
    by_cases hs : ic.strategy ∈ allowedStrategies
    · rw [if_pos hs] at h
      simp only [Except.ok.injEq] at h
      rw [← h]
    · rw [if_neg hs] at h; simp at h
  · rw [if_neg he] at h
    simp only [Except.ok.injEq] at h
    rw [← h, hcols]

/-- Trace of every completed run: the config-file key was found, the
snapshot and logged hyperparameters are exactly those of the config as
loaded from that file, the logged model-type parameter is the selected
key, the model kind is the dispatch's answer, the metrics are the
evaluator's output on the held-out targets and predictions, and one
boxplot artifact is named per configured feature column. -/
theorem runCore_ok_props
    (fit : ModelKind → List (String × ℚ) → List (List ℚ) → List ℚ → List ℚ → ℚ)
    (readConfig : String → Config) (df : DataFrame) (mt : String) (c : RunCore)
    (h : runCore fit readConfig df mt = Except.ok c) :
    ∃ path, model_config_files.lookup mt = some path ∧
      c.snapshot = readConfig path ∧
      c.paramHyper = (readConfig path).model.hyperparameters ∧
      c.paramModelType = mt ∧
      selectModel mt = Except.ok c.modelKind ∧
      computeMetrics c.yTest c.predictions = some c.metrics ∧
      c.boxplots.length = (readConfig path).feature_selection.features_to_keep.length := by
  unfold runCore at h
  obtain ⟨path, hpath, h⟩ := exStep_ok h
  obtain ⟨X0, hX0, h⟩ := exStep_ok h
  obtain ⟨ycells, hy, h⟩ := exStep_ok h
  obtain ⟨X1, hX1, h⟩ := exStep_ok h
  obtain ⟨split, hsplit, h⟩ := exStep_ok h
  obtain ⟨kind, hkind, h⟩ := exStep_ok h
  obtain ⟨xtrv, hxtr, h⟩ := optStep_ok h
  obtain ⟨ytrv, hytr, h⟩ := optStep_ok h
  obtain ⟨xtev, hxte, h⟩ := optStep_ok h
  obtain ⟨ytev, hyte, h⟩ := optStep_ok h
  obtain ⟨m, hm, h⟩ := optStep_ok h
  simp only [Except.ok.injEq] at h
  subst h
  refine ⟨path, lookupConfigFile_ok hpath, rfl, rfl, rfl, ?_, ?_, ?_⟩
  · exact hkind
  · exact hm
  · have hc1 : X1.cols = (readConfig path).feature_selection.features_to_keep :=
      imputeStep_cols (selectCols_cols hX0) hX1
    simp [hc1]

end StageLemmas

section RunFixtures

attribute [local semireducible] Rat.add Rat.mul Rat.sub Rat.inv

/-- The concrete run on the complete 10-row dataset completes and
produces exactly the record `wRec`. -/
theorem wRun_ok : runPipeline cFit cRead wDf "t" "RandomForestRegressor" = Except.ok wRec := by
  decide

end RunFixtures

section SplitLemmas

/-- When the split's validation passes, the split returns exactly the
permuted partition. -/
theorem train_test_split_eq {α β : Type} {X : List α} {y : List β} {ts : ℚ} {seed : ℕ}
    (hlen : X.length = y.length) (hts0 : 0 < ts) (hts1 : ts < 1)
    (hn0 : 0 < nTestOf ts X.length) (hn1 : nTestOf ts X.length < X.length) :
    train_test_split X y ts seed = Except.ok
      (((shuffle seed (X.zip y)).drop (nTestOf ts X.length)).map Prod.fst,
       ((shuffle seed (X.zip y)).take (nTestOf ts X.length)).map Prod.fst,
       ((shuffle seed (X.zip y)).drop (nTestOf ts X.length)).map Prod.snd,
       ((shuffle seed (X.zip y)).take (nTestOf ts X.length)).map Prod.snd) := by
  unfold train_test_split
  rw [if_neg (by simp [hlen])]
  rw [if_neg (by rintro (hc | hc) <;> linarith)]
  rw [if_neg (by omega)]

/-- Composition of the whole pipeline from the success of its
individual stages: if config lookup, column selections, imputation,
split, dispatch, completeness checks and metric computation each
succeed, the run completes with exactly the assembled record. -/
theorem runCore_eq_of_steps
    (fit : ModelKind → List (String × ℚ) → List (List ℚ) → List ℚ → List ℚ → ℚ)
    (readConfig : String → Config) (df : DataFrame) (mt path : String)
    (X0 X1 : FeatureMatrix) (ycells : List (Option ℚ))
    (sp : List (List (Option ℚ)) × List (List (Option ℚ)) × List (Option ℚ) × List (Option ℚ))
    (kind : ModelKind) (xtrv xtev : List (List ℚ)) (ytrv ytev : List ℚ) (m : Metrics)
    (h1 : lookupConfigFile mt = Except.ok path)
    (h2 : selectCols df (readConfig path).feature_selection.features_to_keep = Except.ok X0)
    (h3 : selectCol df (readConfig path).target_variable = Except.ok ycells)
    (h4 : imputeStep (readConfig path).missing_value_imputation
            (readConfig path).feature_selection.features_to_keep X0 = Except.ok X1)
    (h5 : train_test_split X1.rows ycells (readConfig path).data_split.test_size
            (readConfig path).data_split.random_state = Except.ok sp)
    (h6 : selectModel mt = Except.ok kind)
    (h7 : toMatQ sp.1 = some xtrv)
    (h8 : toVecQ sp.2.2.1 = some ytrv)
    (h9 : toMatQ sp.2.1 = some xtev)
    (h10 : toVecQ sp.2.2.2 = some ytev)
    (h11 : computeMetrics ytev
            (xtev.map (fit kind (readConfig path).model.hyperparameters xtrv ytrv)) = some m) :
    runCore fit readConfig df mt = Except.ok
      { paramModelType := mt
        paramHyper := (readConfig path).model.hyperparameters
        modelKind := kind
        xTrain := xtrv
        xTest := xtev
        yTrain := ytrv
        yTest := ytev
        predictions := xtev.map (fit kind (readConfig path).model.hyperparameters xtrv ytrv)
        metrics := m
        snapshot := readConfig path
        boxplots := X1.cols.map (fun c => c ++ "_boxplot.png")
        corrArtifact := "correlation_matrix.png" } := by
  unfold runCore
  rw [h1]
  simp only [exStep]
  rw [h2]
  simp only [exStep]
  rw [h3]
  simp only [exStep]
  rw [h4]
  simp only [exStep]
  rw [h5]
  simp only [exStep]
  rw [h6]
  simp only [exStep]
  rw [h7]
  simp only [optStep]
  rw [h8]
  simp only [optStep]
  rw [h9]
  simp only [optStep]
  rw [h10]
  simp only [optStep]
  rw [h11]

end SplitLemmas

section Claims

attribute [local semireducible] Rat.add Rat.mul Rat.sub Rat.inv

/-- C2: selecting the model-type string "SVR" fails with a key-lookup
error at the config-loading step (train.py line 34), because the dict
`model_config_files` has no entry for "SVR" — even though the dispatch
of lines 60-69 does have an SVR branch that would accept the key. -/
theorem svr_fails_at_config_lookup :
    (∀ fit readConfig df now, runPipeline fit readConfig df now "SVR" =
      Except.error (PipelineError.keyError "SVR")) ∧
    selectModel "SVR" = Except.ok ModelKind.svr := by
  exact ⟨fun fit readConfig df now => rfl, rfl⟩

/-- C1 counterexample: running the pipeline with the unsupported
model-type string "AdaBoost" does not raise the explicit ValueError of
train.py line 69; it raises the KeyError of line 34 instead, because the
config-file lookup precedes the model dispatch and fails first. -/
theorem unsupported_model_no_value_error :
    runPipeline cFit cRead cDf "t" "AdaBoost" =
      Except.error (PipelineError.keyError "AdaBoost") ∧
    runPipeline cFit cRead cDf "t" "AdaBoost" ≠
      Except.error (PipelineError.valueError "Model type AdaBoost is not supported.") := by
  constructor
  · rfl
  · decide

/-- C1 amended: for every model-type string outside
{RandomForestRegressor, LogisticRegression, SVR, XGBRegressor} the
pipeline fails before any training occurs — for every trainer, config
store, dataset and timestamp — but with the key-lookup error of the
config-file dict (train.py line 34), not the explicit ValueError of
line 69; the dispatch alone would raise that ValueError, yet it is never
reached because the config lookup fails first. -/
theorem unsupported_model_fails_before_training (mt : String)
    (h : mt ∉ ["RandomForestRegressor", "LogisticRegression", "SVR", "XGBRegressor"]) :
    (∀ fit readConfig df now, runPipeline fit readConfig df now mt =
      Except.error (PipelineError.keyError mt)) ∧
    selectModel mt =
      Except.error (PipelineError.valueError ("Model type " ++ mt ++ " is not supported.")) := by
  simp only [List.mem_cons, List.not_mem_nil, or_false, not_or] at h
  obtain ⟨h1, h2, h3, h4⟩ := h
  have e1 : (mt == "RandomForestRegressor") = false := beq_eq_false_iff_ne.mpr h1
  have e2 : (mt == "LogisticRegression") = false := beq_eq_false_iff_ne.mpr h2
  have e4 : (mt == "XGBRegressor") = false := beq_eq_false_iff_ne.mpr h4
  have hl : model_config_files.lookup mt = none := by
    simp [model_config_files, List.lookup, e1, e2, e4]
  constructor
  · intro fit readConfig df now
    unfold runPipeline runCore
    rw [lookupConfigFile_err hl]
    rfl
  · unfold selectModel
    rw [if_neg h1, if_neg h2, if_neg h3, if_neg h4]

/-- C1 witness: the amended statement at the concrete unsupported key
"GradientBoosting". -/
theorem unsupported_model_fails_before_training_witness :
    runPipeline cFit cRead cDf "t" "GradientBoosting" =
      Except.error (PipelineError.keyError "GradientBoosting") ∧
    selectModel "GradientBoosting" =
      Except.error (PipelineError.valueError
        ("Model type " ++ "GradientBoosting" ++ " is not supported.")) :=
  ⟨(unsupported_model_fails_before_training "GradientBoosting" (by decide)).1 cFit cRead cDf "t",
   (unsupported_model_fails_before_training "GradientBoosting" (by decide)).2⟩

/-- C3: with imputation enabled and a strategy the library recognises,
the imputation step succeeds and preserves the matrix shape: the same
column labels in the same order, the same number of rows as the input,
and every row of the configured width — regardless of how many cells
were missing. -/
theorem imputation_preserves_shape (ic : ImputeConfig) (features : List String)
    (X : FeatureMatrix) (he : ic.enabled = true) (hs : ic.strategy ∈ allowedStrategies)
    (hcols : X.cols = features) (_hrows : ∀ r ∈ X.rows, r.length = features.length) :
    ∃ X1, imputeStep ic features X = Except.ok X1 ∧
      X1.cols = X.cols ∧ X1.rows.length = X.rows.length ∧
      ∀ r ∈ X1.rows, r.length = features.length := by
  refine ⟨⟨features, (imputeMatrix ic.strategy features.length X.rows).map
      (fun r => r.map some)⟩, ?_, ?_, ?_, ?_⟩
  · unfold imputeStep
    rw [if_pos he, if_pos hs]
  · rw [hcols]
  · simp [imputeMatrix]
  · intro r hr
    simp only [imputeMatrix, List.mem_map] at hr
    obtain ⟨r1, hr1, rfl⟩ := hr
    obtain ⟨r2, hr2, rfl⟩ := hr1
    simp

/-- C3 witness: the shape-preservation statement at a concrete 2-row,
one-column matrix with a missing cell. -/
theorem imputation_preserves_shape_witness :
    ∃ X1, imputeStep ⟨true, "mean"⟩ ["a"] ⟨["a"], [[some 1], [none]]⟩ = Except.ok X1 ∧
      X1.cols = (⟨["a"], [[some 1], [none]]⟩ : FeatureMatrix).cols ∧
      X1.rows.length = (⟨["a"], [[some 1], [none]]⟩ : FeatureMatrix).rows.length ∧
      ∀ r ∈ X1.rows, r.length = (["a"] : List String).length :=
  imputation_preserves_shape ⟨true, "mean"⟩ ["a"] ⟨["a"], [[some 1], [none]]⟩
    rfl (by decide) rfl (by decide)

/-- C4: the pipeline is deterministic in everything except the
timestamp used for the run name — two runs on the same trainer, config
store, dataset, seed and model type produce identical train/test
partitions and identical metric values, whatever their timestamps. -/
theorem runs_deterministic
    (fit : ModelKind → List (String × ℚ) → List (List ℚ) → List ℚ → List ℚ → ℚ)
    (readConfig : String → Config) (df : DataFrame) (mt now1 now2 : String) :
    runPartition (runPipeline fit readConfig df now1 mt) =
      runPartition (runPipeline fit readConfig df now2 mt) := by
  unfold runPipeline runPartition
  cases runCore fit readConfig df mt <;> rfl

/-- C7: the metric computation is a pure function of the pair
(true values, predictions); on every pair of equal-length vectors it
succeeds and returns exactly the mse, mae and r2 scores, and on every
pair of mismatched-length vectors it fails. -/
theorem metrics_succeed_iff_lengths_match :
    (∀ y p : List ℚ, y.length = p.length →
      computeMetrics y p =
        some ⟨mean_squared_error y p, mean_absolute_error y p, r2_score y p⟩) ∧
    (∀ y p : List ℚ, y.length ≠ p.length → computeMetrics y p = none) := by
  constructor
  · intro y p h
    simp [computeMetrics, h]
  · intro y p h
    simp [computeMetrics, h]

/-- C7 witness: the metric computation at one equal-length pair and one
mismatched pair. -/
theorem metrics_succeed_iff_lengths_match_witness :
    computeMetrics [1, 2] [0, 0] =
      some ⟨mean_squared_error [1, 2] [0, 0], mean_absolute_error [1, 2] [0, 0],
        r2_score [1, 2] [0, 0]⟩ ∧
    computeMetrics [1] [] = none :=
  ⟨metrics_succeed_iff_lengths_match.1 [1, 2] [0, 0] (by decide),
   metrics_succeed_iff_lengths_match.2 [1] [] (by decide)⟩

/-- The sum of squared differences is non-negative. -/
theorem sum_sq_diff_nonneg :
    ∀ (y p : List ℚ), 0 ≤ (List.zipWith (fun a b => (a - b) ^ 2) y p).sum := by
  intro y
  induction y with
  | nil => intro p; simp
  | cons a as ih =>
    intro p
    cases p with
    | nil => simp
    | cons b bs =>
      simp only [List.zipWith, List.sum_cons]
      have h1 : (0 : ℚ) ≤ (a - b) ^ 2 := sq_nonneg _
      have h2 := ih bs
      linarith

/-- The mse is non-negative. -/
theorem mean_squared_error_nonneg (y p : List ℚ) : 0 ≤ mean_squared_error y p := by
  unfold mean_squared_error
  exact div_nonneg (sum_sq_diff_nonneg y p) (Nat.cast_nonneg _)

/-- C10: for equal-length prediction and target vectors, the rmse the
script computes (train.py line 91) squares back to the mse it computes
(line 89), both being evaluated on the same pair. -/
theorem rmse_sq_eq_mse (y p : List ℚ) (_h : y.length = p.length) :
    rmse y p ^ 2 = ((mean_squared_error y p : ℚ) : ℝ) := by
  unfold rmse
  rw [Real.sq_sqrt]
  exact_mod_cast mean_squared_error_nonneg y p

/-- C8: on consistent inputs the split succeeds exactly when the test
fraction lies strictly inside (0,1) and the data has enough rows for a
split of the requested size — a non-empty ceiling-sized test part that
still leaves a non-empty train part; outside those conditions it
fails. -/
theorem split_succeeds_iff {α β : Type} (X : List α) (y : List β) (ts : ℚ) (seed : ℕ)
    (hlen : X.length = y.length) :
    (∃ r, train_test_split X y ts seed = Except.ok r) ↔
      (0 < ts ∧ ts < 1 ∧ 0 < nTestOf ts X.length ∧ nTestOf ts X.length < X.length) := by
  unfold train_test_split
  rw [if_neg (by simp [hlen])]
  by_cases h1 : ts ≤ 0 ∨ 1 ≤ ts
  · rw [if_pos h1]
    constructor
    · rintro ⟨r, hr⟩
      exact absurd hr (by simp)
    · rintro ⟨ha, hb, -⟩
      rcases h1 with h1 | h1 <;> linarith
  · rw [if_neg h1]
    push_neg at h1
    by_cases h2 : nTestOf ts X.length = 0 ∨ X.length - nTestOf ts X.length = 0
    · rw [if_pos h2]
      constructor
      · rintro ⟨r, hr⟩
        exact absurd hr (by simp)
      · rintro ⟨-, -, hc, hd⟩
        rcases h2 with h2 | h2 <;> omega
    · rw [if_neg h2]
      push_neg at h2
      refine ⟨fun _ => ⟨h1.1, h1.2, ?_, ?_⟩, fun _ => ⟨_, rfl⟩⟩
      · omega
      · omega

/-- C8 witness: the split-success characterisation at a concrete
10-element input with fraction 1/5 and seed 42. -/
theorem split_succeeds_iff_witness :
    (∃ r, train_test_split (List.range 10) (List.range 10) (1/5) 42 = Except.ok r) ↔
      (0 < (1/5 : ℚ) ∧ (1/5 : ℚ) < 1 ∧ 0 < nTestOf (1/5) (List.range 10).length ∧
        nTestOf (1/5) (List.range 10).length < (List.range 10).length) :=
  split_succeeds_iff (List.range 10) (List.range 10) (1/5) 42 rfl

/-- C6: every completed run logs exactly one boxplot artifact per
configured feature column — the number of boxplot artifacts equals the
length of features_to_keep of the config the run loaded. -/
theorem boxplot_count_eq_features
    (fit : ModelKind → List (String × ℚ) → List (List ℚ) → List ℚ → List ℚ → ℚ)
    (readConfig : String → Config) (df : DataFrame) (now mt path : String) (r0 : RunRecord)
    (hpath : model_config_files.lookup mt = some path)
    (h : runPipeline fit readConfig df now mt = Except.ok r0) :
    r0.core.boxplots.length =
      (readConfig path).feature_selection.features_to_keep.length := by
  unfold runPipeline at h
  cases hc : runCore fit readConfig df mt with
  | error e => rw [hc] at h; simp [Except.map] at h
  | ok c =>
    rw [hc] at h
    simp only [Except.map, Except.ok.injEq] at h
    obtain ⟨path2, hp2, -, -, -, -, -, hbox⟩ := runCore_ok_props fit readConfig df mt c hc
    rw [hpath] at hp2
    simp only [Option.some.injEq] at hp2
    rw [← hp2] at hbox
    rw [← h]
    exact hbox

/-- C6 witness: the boxplot count of the concrete completed run equals
the number of configured features. -/
theorem boxplot_count_eq_features_witness :
    wRec.core.boxplots.length =
      (cRead "configs/RandomForest.json").feature_selection.features_to_keep.length :=
  boxplot_count_eq_features cFit cRead wDf "t" "RandomForestRegressor"
    "configs/RandomForest.json" wRec rfl wRun_ok

/-- C9: after every completed run, the config snapshot written at the
end is exactly the config as loaded from the selected config file, and
the hyperparameters logged as run parameters are those of that same
loaded config: no pipeline step changes the loaded configuration, which
flows unmodified from the load to the final dump. -/
theorem snapshot_is_loaded_config
    (fit : ModelKind → List (String × ℚ) → List (List ℚ) → List ℚ → List ℚ → ℚ)
    (readConfig : String → Config) (df : DataFrame) (now mt path : String) (r0 : RunRecord)
    (hpath : model_config_files.lookup mt = some path)
    (h : runPipeline fit readConfig df now mt = Except.ok r0) :
    r0.core.snapshot = readConfig path ∧
    r0.core.paramHyper = (readConfig path).model.hyperparameters := by
  unfold runPipeline at h
  cases hc : runCore fit readConfig df mt with
  | error e => rw [hc] at h; simp [Except.map] at h
  | ok c =>
    rw [hc] at h
    simp only [Except.map, Except.ok.injEq] at h
    obtain ⟨path2, hp2, hsnap, hhyp, -, -, -, -⟩ := runCore_ok_props fit readConfig df mt c hc
    rw [hpath] at hp2
    simp only [Option.some.injEq] at hp2
    rw [← hp2] at hsnap hhyp
    rw [← h]
    exact ⟨hsnap, hhyp⟩

/-- C9 witness: the snapshot of the concrete completed run is the
loaded config. -/
theorem snapshot_is_loaded_config_witness :
    wRec.core.snapshot = cRead "configs/RandomForest.json" ∧
    wRec.core.paramHyper = (cRead "configs/RandomForest.json").model.hyperparameters :=
  snapshot_is_loaded_config cFit cRead wDf "t" "RandomForestRegressor"
    "configs/RandomForest.json" wRec rfl wRun_ok

/-- C5: the spec's concrete scenario — the configuration with features
a and b, target y, imputation disabled, test_size 0.2, random_state 42
and n_estimators 10, applied to any complete 10-row dataset with
columns a, b and y, yields a completed run whose train partition has
8 rows and test partition 2 rows, and whose run record carries metric
values computed from the held-out targets and predictions. -/
theorem concrete_scenario_8_2_split
    (fit : ModelKind → List (String × ℚ) → List (List ℚ) → List ℚ → List ℚ → ℚ)
    (df : DataFrame) (now : String)
    (hcols : df.cols = ["a", "b", "y"])
    (hlen : df.rows.length = 10)
    (hfull : ∀ r ∈ df.rows, r.length = 3 ∧ ∀ c ∈ r, c.isSome = true) :
    ∃ r0, runPipeline fit (fun _ => cConfig) df now "RandomForestRegressor" = Except.ok r0 ∧
      r0.core.xTrain.length = 8 ∧ r0.core.xTest.length = 2 ∧
      r0.core.yTrain.length = 8 ∧ r0.core.yTest.length = 2 ∧
      computeMetrics r0.core.yTest r0.core.predictions = some r0.core.metrics := by
  set Xr : List (List (Option ℚ)) := df.rows.map (fun r => [r.getD 0 none, r.getD 1 none]) with hXrd
  set yc : List (Option ℚ) := df.rows.map (fun r => r.getD 2 none) with hycd
  set Xs : List (List (Option ℚ) × Option ℚ) := shuffle 42 (Xr.zip yc) with hXsd
  have hXr : Xr.length = 10 := by rw [hXrd, List.length_map, hlen]
  have hyc : yc.length = 10 := by rw [hycd, List.length_map, hlen]
  have hsel : selectCols df ["a", "b"] = Except.ok ⟨["a", "b"], Xr⟩ := by
    unfold selectCols
    rw [hcols]
    rfl
  have hy : selectCol df "y" = Except.ok yc := by
    unfold selectCol
    rw [hcols]
    rfl
  have himp : imputeStep cConfig.missing_value_imputation ["a", "b"]
      (⟨["a", "b"], Xr⟩ : FeatureMatrix) = Except.ok ⟨["a", "b"], Xr⟩ := rfl
  have hnt : nTestOf (1/5) 10 = 2 := by decide
  have hnt2 : nTestOf (1/5) Xr.length = 2 := by rw [hXr]; exact hnt
  have hsplit := @train_test_split_eq (List (Option ℚ)) (Option ℚ) Xr yc (1/5) 42
    (by rw [hXr, hyc]) (by decide) (by decide)
    (by rw [hnt2]; decide) (by rw [hnt2, hXr]; decide)
  rw [hnt2] at hsplit
  rw [← hXsd] at hsplit
  have hshuf : Xs.length = 10 := by
    rw [hXsd, shuffle_length, List.length_zip, hXr, hyc]
    decide
  have hmem : ∀ p ∈ Xs, (∀ c ∈ p.1, c.isSome = true) ∧ p.2.isSome = true := by
    rintro ⟨row, yv⟩ hp
    have hpz := shuffle_subset 42 (Xr.zip yc) _ (hXsd ▸ hp)
    obtain ⟨hrow, hyv⟩ := List.of_mem_zip hpz
    constructor
    · intro c hc
      rw [hXrd] at hrow
      obtain ⟨r, hr, hreq⟩ := List.mem_map.mp hrow
      obtain ⟨hr3, hrall⟩ := hfull r hr
      rw [← hreq] at hc
      simp only [List.mem_cons, List.not_mem_nil, or_false] at hc
      rcases hc with hc | hc
      · rw [hc]; exact getD_isSome_of_all r 0 (by omega) hrall
      · rw [hc]; exact getD_isSome_of_all r 1 (by omega) hrall
    · rw [hycd] at hyv
      obtain ⟨r, hr, hreq⟩ := List.mem_map.mp hyv
      obtain ⟨hr3, hrall⟩ := hfull r hr
      rw [← hreq]
      exact getD_isSome_of_all r 2 (by omega) hrall
  have hallxtr : ∀ row ∈ (Xs.drop 2).map Prod.fst, ∀ c ∈ row, c.isSome = true := by
    intro row hrow
    obtain ⟨p, hp, hpe⟩ := List.mem_map.mp hrow
    rw [← hpe]
    exact (hmem p (List.drop_subset 2 Xs hp)).1
  have hallxte : ∀ row ∈ (Xs.take 2).map Prod.fst, ∀ c ∈ row, c.isSome = true := by
    intro row hrow
    obtain ⟨p, hp, hpe⟩ := List.mem_map.mp hrow
    rw [← hpe]
    exact (hmem p (List.take_subset 2 Xs hp)).1
  have hallytr : ∀ c ∈ (Xs.drop 2).map Prod.snd, c.isSome = true := by
    intro c hc
    obtain ⟨p, hp, hpe⟩ := List.mem_map.mp hc
    rw [← hpe]
    exact (hmem p (List.drop_subset 2 Xs hp)).2
  have hallyte : ∀ c ∈ (Xs.take 2).map Prod.snd, c.isSome = true := by
    intro c hc
    obtain ⟨p, hp, hpe⟩ := List.mem_map.mp hc
    rw [← hpe]
    exact (hmem p (List.take_subset 2 Xs hp)).2
  obtain ⟨xtrv, hxtrv⟩ := toMatQ_isSome _ hallxtr
  obtain ⟨xtev, hxtev⟩ := toMatQ_isSome _ hallxte
  obtain ⟨ytrv, hytrv⟩ := toVecQ_isSome _ hallytr
  obtain ⟨ytev, hytev⟩ := toVecQ_isSome _ hallyte
  have hxtrlen : xtrv.length = 8 := by
    rw [toMatQ_length _ _ hxtrv, List.length_map, List.length_drop, hshuf]
  have hxtelen : xtev.length = 2 := by
    rw [toMatQ_length _ _ hxtev, List.length_map, List.length_take, hshuf]
    decide
  have hytrlen : ytrv.length = 8 := by
    rw [toVecQ_length _ _ hytrv, List.length_map, List.length_drop, hshuf]
  have hytelen : ytev.length = 2 := by
    rw [toVecQ_length _ _ hytev, List.length_map, List.length_take, hshuf]
    decide
  set pred : List ℚ → ℚ :=
    fit ModelKind.randomForestRegressor cConfig.model.hyperparameters xtrv ytrv with hpredd
  have hmetlen : ytev.length = (xtev.map pred).length := by
    rw [hytelen, List.length_map, hxtelen]
  have hmet : computeMetrics ytev (xtev.map pred) =
      some ⟨mean_squared_error ytev (xtev.map pred),
            mean_absolute_error ytev (xtev.map pred),
            r2_score ytev (xtev.map pred)⟩ := by
    unfold computeMetrics
    rw [if_pos hmetlen]
  have hcore := runCore_eq_of_steps fit (fun _ => cConfig) df "RandomForestRegressor"
    "configs/RandomForest.json" ⟨["a", "b"], Xr⟩ ⟨["a", "b"], Xr⟩ yc
    ((Xs.drop 2).map Prod.fst, (Xs.take 2).map Prod.fst,
     (Xs.drop 2).map Prod.snd, (Xs.take 2).map Prod.snd)
    ModelKind.randomForestRegressor xtrv xtev ytrv ytev
    ⟨mean_squared_error ytev (xtev.map pred),
     mean_absolute_error ytev (xtev.map pred),
     r2_score ytev (xtev.map pred)⟩
    rfl hsel hy himp hsplit rfl hxtrv hytrv hxtev hytev hmet
  have hrunP : runPipeline fit (fun _ => cConfig) df now "RandomForestRegressor" = Except.ok
      ⟨"RandomForestRegressor" ++ " run " ++ now,
       { paramModelType := "RandomForestRegressor"
         paramHyper := cConfig.model.hyperparameters
         modelKind := ModelKind.randomForestRegressor
         xTrain := xtrv
         xTest := xtev
         yTrain := ytrv
         yTest := ytev
         predictions := xtev.map pred
         metrics := ⟨mean_squared_error ytev (xtev.map pred),
                     mean_absolute_error ytev (xtev.map pred),
                     r2_score ytev (xtev.map pred)⟩
         snapshot := cConfig
         boxplots := List.map (fun c => c ++ "_boxplot.png") ["a", "b"]
         corrArtifact := "correlation_matrix.png" }⟩ := by
    unfold runPipeline
    rw [hcore]
    rfl
  exact ⟨_, hrunP, hxtrlen, hxtelen, hytrlen, hytelen, hmet⟩

/-- C5 witness: the concrete scenario run on the concrete complete
10-row dataset. -/
theorem concrete_scenario_8_2_split_witness :
    ∃ r0, runPipeline cFit (fun _ => cConfig) wDf "t" "RandomForestRegressor" = Except.ok r0 ∧
      r0.core.xTrain.length = 8 ∧ r0.core.xTest.length = 2 ∧
      r0.core.yTrain.length = 8 ∧ r0.core.yTest.length = 2 ∧
      computeMetrics r0.core.yTest r0.core.predictions = some r0.core.metrics :=
  concrete_scenario_8_2_split cFit wDf "t" rfl (by decide) (by decide)

/-- C10 witness: the rmse-mse relation at a concrete pair. -/
theorem rmse_sq_eq_mse_witness :
    rmse [1, 2] [0, 0] ^ 2 = ((mean_squared_error [1, 2] [0, 0] : ℚ) : ℝ) :=
  rmse_sq_eq_mse [1, 2] [0, 0] (by decide)

end Claims

end Train
